import Mathlib

/-!
Shallow embedding of the KubeVela multi-cluster query provider
(package `query`, plus the `types` constants used by it), together with
theorems checking the specification claims about service-endpoint
derivation, pod-collector dispatch and log-stream handling.

Go machine integers are modelled as `Int` with explicit two's-complement
wrapping (`toInt32`, `wrap64`) where an overflow can occur; Go maps with
string values are modelled as association lists whose lookup defaults to
the empty string; fallible Go calls are modelled with `Option`/`Except`.
-/

namespace Query

/-- Two's-complement wrap of an integer to signed 32 bits, the effect of a
Go `int32(x)` conversion. -/
def toInt32 (n : Int) : Int := (n + 2 ^ 31) % 2 ^ 32 - 2 ^ 31

/-- Two's-complement wrap of an integer to signed 64 bits, the effect of Go
`int64` arithmetic overflow. -/
def wrap64 (n : Int) : Int := (n + 2 ^ 63) % 2 ^ 64 - 2 ^ 63

/-- `apis/types`: annotation key for the ingress-controller https listen port. -/
def AnnoIngressControllerHTTPSPort : String := "ingress.controller/https-port"

/-- `apis/types`: annotation key for the ingress-controller http listen port. -/
def AnnoIngressControllerHTTPPort : String := "ingress.controller/http-port"

/-- Go `ingress.Annotations[key]`: map access on a string-valued map returns
the empty string when the key is absent. -/
def annoLookup (annots : List (String × String)) (key : String) : String :=
  match annots.find? (fun kv => kv.1 = key) with
  | some kv => kv.2
  | none => ""

/-- Go `strconv.Atoi` on a 64-bit platform: optional sign, at least one
decimal digit, value within the signed 64-bit range; `none` models a
non-nil error (syntax or range). -/
def atoi (s : String) : Option Int :=
  let chars := s.toList
  let signed : Bool × List Char :=
    match chars with
    | '-' :: rest => (true, rest)
    | '+' :: rest => (false, rest)
    | _ => (false, chars)
  let digits := signed.2
  if digits.isEmpty then none
  else if digits.all (fun d => d.isDigit) then
    let n : Nat := digits.foldl (fun acc d => acc * 10 + (d.toNat - '0'.toNat)) 0
    let v : Int := if signed.1 then -(n : Int) else (n : Int)
    if -(2 ^ 63) ≤ v ∧ v < 2 ^ 63 then some v else none
  else none

/-- `corev1.ObjectReference`, restricted to the fields the query provider
fills in. -/
structure ObjectReference where
  kind : String
  nspace : String
  name : String
  uid : String
  apiVersion : String
  resourceVersion : String
deriving DecidableEq

/-- `query.Endpoint`: one derived network endpoint. The port is the value
of a Go `int32` field, kept as an `Int` that is always in int32 range. -/
structure Endpoint where
  protocol : String
  appProtocol : Option String
  host : String
  port : Int
  path : String
deriving DecidableEq

/-- `query.ServiceEndpoint`: an endpoint plus a reference to the object it
was derived from. -/
structure ServiceEndpoint where
  endpoint : Endpoint
  ref : ObjectReference
deriving DecidableEq

/-- `corev1.ServicePort`, restricted to the fields read by the deriver. -/
structure ServicePort where
  protocol : String
  port : Int
  nodePort : Int
deriving DecidableEq

/-- `corev1.LoadBalancerIngress`: one ingress point of a load-balancer
service status. -/
structure LoadBalancerIngress where
  ip : String
  hostname : String
deriving DecidableEq

/-- `corev1.Service`, restricted to the fields read by
`generatorFromService`.  `specType` is the string value of
`service.Spec.Type`. -/
structure Service where
  kind : String
  apiVersion : String
  nspace : String
  name : String
  uid : String
  resourceVersion : String
  specType : String
  ports : List ServicePort
  lbIngress : List LoadBalancerIngress
deriving DecidableEq

/-- The `corev1.ObjectReference` literal that `generatorFromService`
repeats at each append. -/
def svcRef (s : Service) : ObjectReference :=
  { kind := s.kind
    nspace := s.nspace
    name := s.name
    uid := s.uid
    apiVersion := s.apiVersion
    resourceVersion := s.resourceVersion }

/-- `query.generatorFromService`: endpoints derived from a Service.  The Go
nested loops with `append` become nested `List.bind`; the struct literals
keep the Go zero values (`appProtocol = none`, `host`/`path` empty) for the
fields the source does not set. -/
def generatorFromService (s : Service) : List ServiceEndpoint :=
  if s.specType = "LoadBalancer" then
    s.ports.flatMap (fun port =>
      s.lbIngress.flatMap (fun ing =>
        (if ing.hostname ≠ "" then
          [{ endpoint := { protocol := port.protocol, appProtocol := none,
                           host := ing.hostname, port := port.port, path := "" }
             ref := svcRef s }]
         else []) ++
        (if ing.ip ≠ "" then
          [{ endpoint := { protocol := port.protocol, appProtocol := none,
                           host := ing.ip, port := port.port, path := "" }
             ref := svcRef s }]
         else [])))
  else if s.specType = "NodePort" then
    s.ports.map (fun port =>
      { endpoint := { protocol := port.protocol, appProtocol := none,
                      host := "", port := port.nodePort, path := "" }
        ref := svcRef s })
  else []

/-- Modelled from the spec: `utils.StringsContain` (package `pkg/utils`,
not under `src/`) — whether a string slice contains the given string; the
spec reads "some TLS entry's host list contains the rule's host". -/
def stringsContain (xs : List String) (x : String) : Bool :=
  xs.contains x

/-- `networkingv1beta1.HTTPIngressPath`, restricted to the `Path` field. -/
structure HTTPIngressPath where
  path : String
deriving DecidableEq

/-- `networkingv1beta1.IngressRule`: a host plus an optional HTTP section
(`rule.HTTP` is a nilable pointer whose payload is its path list). -/
structure IngressRule where
  host : String
  http : Option (List HTTPIngressPath)
deriving DecidableEq

/-- `networkingv1beta1.IngressTLS`, restricted to the `Hosts` field. -/
structure IngressTLS where
  hosts : List String
deriving DecidableEq

/-- `networkingv1beta1.Ingress`, restricted to the fields read by
`generatorFromIngress`. -/
structure Ingress where
  kind : String
  apiVersion : String
  nspace : String
  name : String
  uid : String
  resourceVersion : String
  annotations : List (String × String)
  tls : List IngressTLS
  rules : List IngressRule
deriving DecidableEq

/-- The loop body of `getAppProtocol` inside `generatorFromIngress`: walk
the TLS entries, returning "https" at the first entry whose non-empty host
list contains the host or whose host list is empty. -/
def getAppProtocolLoop (host : String) : List IngressTLS → String
  | [] => "http"
  | t :: rest =>
    if t.hosts.length > 0 && stringsContain t.hosts host then "https"
    else if t.hosts.length = 0 then "https"
    else getAppProtocolLoop host rest

/-- `getAppProtocol` closure of `generatorFromIngress`: the TLS-driven
http/https decision for one rule host. -/
def getAppProtocol (ing : Ingress) (host : String) : String :=
  if ing.tls.length > 0 then getAppProtocolLoop host ing.tls else "http"

/-- `getEndpointPort` closure of `generatorFromIngress`: the
annotation-driven listen port for the chosen app protocol (Go `int`,
before the `int32` conversion at the construction site). -/
def getEndpointPort (ing : Ingress) (appProtocol : String) : Int :=
  if appProtocol = "https" then
    match atoi (annoLookup ing.annotations AnnoIngressControllerHTTPSPort) with
    | some port => if port > 0 then port else 443
    | none => 443
  else
    match atoi (annoLookup ing.annotations AnnoIngressControllerHTTPPort) with
    | some port => if port > 0 then port else 80
    | none => 80

/-- The `corev1.ObjectReference` literal that `generatorFromIngress` fills
in for each endpoint. -/
def ingRef (ing : Ingress) : ObjectReference :=
  { kind := ing.kind
    nspace := ing.nspace
    name := ing.name
    uid := ing.uid
    apiVersion := ing.apiVersion
    resourceVersion := ing.resourceVersion }

/-- `query.generatorFromIngress`: endpoints derived from an Ingress.  The
per-rule loop binds `appProtocol` and `appPort`, guards on `rule.HTTP !=
nil`, and appends one endpoint per path; `Port: int32(appPort)` is the Go
conversion, modelled by `toInt32`. -/
def generatorFromIngress (ing : Ingress) : List ServiceEndpoint :=
  ing.rules.flatMap (fun rule =>
    let appProtocol := getAppProtocol ing rule.host
    let appPort := getEndpointPort ing appProtocol
    match rule.http with
    | none => []
    | some paths =>
      paths.map (fun p =>
        { endpoint := { protocol := "TCP", appProtocol := some appProtocol,
                        host := rule.host, port := toInt32 appPort, path := p.path }
          ref := ingRef ing }))

/-- Go `strings.ToLower`, restricted to the ASCII range actually reached by
protocol names such as "TCP". -/
def toLowerStr (s : String) : String :=
  String.mk (s.toList.map Char.toLower)

/-- `query.ServiceEndpoint.String`: the rendered endpoint URL.  Mirrors the
Go sequence: lowercase the transport protocol, override it with
`AppProtocol` when non-nil, blank a bare "/" path, and drop the port for
(https, 443) and (http, 80). -/
def serviceEndpointString (s : ServiceEndpoint) : String :=
  let protocol0 := toLowerStr s.endpoint.protocol
  let protocol := match s.endpoint.appProtocol with
    | some p => p
    | none => protocol0
  let path := if s.endpoint.path = "/" then "" else s.endpoint.path
  if (protocol = "https" ∧ s.endpoint.port = 443) ∨
     (protocol = "http" ∧ s.endpoint.port = 80) then
    protocol ++ "://" ++ s.endpoint.host ++ path
  else
    protocol ++ "://" ++ s.endpoint.host ++ ":" ++ toString s.endpoint.port ++ path

/-- `networkingv1beta1.GroupName` from the Kubernetes API library. -/
def networkGroupName : String := "networking.k8s.io"

/-- One entry of `app.Status.AppliedResources` as read by
`GeneratorServiceEndpoints`: the group/version/kind plus the identifying
fields used for lookups and filtering. -/
structure AppliedResource where
  cluster : String
  group : String
  version : String
  kind : String
  nspace : String
  name : String
deriving DecidableEq

/-- The cluster-access environment of `GeneratorServiceEndpoints`: each
field abstracts one collaborator call of the per-resource loop.
`filterOk` stands for `isResourceInTargetCluster` (defined in a file of
this package not under `src/`); `getIngress`/`getService` return `none`
when `findResource` fails (the failure is logged and the resource
skipped); the two helm lists are what `CollectServices`/`CollectIngress`
yield (empty on a logged failure, over which the Go loop still ranges). -/
structure Env where
  filterOk : AppliedResource → Bool
  getIngress : AppliedResource → Option Ingress
  getService : AppliedResource → Option Service
  helmServices : AppliedResource → List Service
  helmIngresses : AppliedResource → List Ingress

/-- The body of the applied-resources loop of `GeneratorServiceEndpoints`:
the endpoints contributed by one applied resource.  The `continue`
statements become empty contributions; no branch of the loop returns an
error. -/
def processResource (env : Env) (r : AppliedResource) : List ServiceEndpoint :=
  if !env.filterOk r then []
  else if r.kind = "Ingress" then
    if r.group = networkGroupName ∧ (r.version = "v1beta1" ∨ r.version = "v1") then
      match env.getIngress r with
      | none => []
      | some ing => generatorFromIngress ing
    else []
  else if r.kind = "Service" then
    match env.getService r with
    | none => []
    | some svc => generatorFromService svc
  else if r.kind = "HelmRelease" then
    (env.helmServices r).flatMap generatorFromService ++
      (env.helmIngresses r).flatMap generatorFromIngress
  else []

/-- `query.GeneratorServiceEndpoints`, after the application has been
fetched: the accumulated `serviceEndpoints` slice over the applied
resources.  Total — the loop itself has no error path. -/
def generatorServiceEndpoints (env : Env) (resources : List AppliedResource) :
    List ServiceEndpoint :=
  resources.flatMap (processResource env)

/-- `schema.GroupVersionKind` of the Kubernetes API machinery. -/
structure GroupVersionKind where
  group : String
  version : String
  kind : String
deriving DecidableEq

/-- `fluxcdGroupVersion.WithKind(HelmReleaseKind)`: the one group/version/
kind that `CollectPods` special-cases. -/
def fluxcdHelmReleaseGVK : GroupVersionKind :=
  { group := "helm.toolkit.fluxcd.io", version := "v2beta1", kind := "HelmRelease" }

/-- Which pod collector `CollectPods` selects: the helm-release bundle
collector or `NewPodCollector(gvk)`. -/
inductive PodCollectorChoice where
  | helmRelease : PodCollectorChoice
  | generic : GroupVersionKind → PodCollectorChoice
deriving DecidableEq

/-- The `switch obj.GroupVersionKind()` dispatch of `CollectPods`. -/
def collectorFor (gvk : GroupVersionKind) : PodCollectorChoice :=
  if gvk = fluxcdHelmReleaseGVK then PodCollectorChoice.helmRelease
  else PodCollectorChoice.generic gvk

/-- `corev1.PodLogOptions`, restricted to the fields read by the time
window computation of `CollectLogsInPod`.  Times are nanoseconds since the
epoch; `sinceSeconds` is a Go `int64`. -/
structure PodLogOptions where
  sinceTime : Option Int
  sinceSeconds : Option Int
deriving DecidableEq

/-- The `fromDate` computation of `CollectLogsInPod` (lines after the read
loop): `SinceTime` wins, else `toDate.Add(time.Duration(-(*SinceSeconds) *
int64(time.Second)))` — both the negation and the multiplication wrap in
signed 64-bit arithmetic — else the pod creation timestamp. -/
def logFromDate (opts : PodLogOptions) (now creation : Int) : Int :=
  match opts.sinceTime with
  | some t => t
  | none =>
    match opts.sinceSeconds with
    | some s => now + wrap64 (wrap64 (-s) * 1000000000)
    | none => creation

/-- The (`fromDate`, `toDate`) pair that `CollectLogsInPod` writes to
`outputs.info`; `toDate` is `v1.Now()` at fetch time. -/
def logWindow (opts : PodLogOptions) (now creation : Int) : Int × Int :=
  (logFromDate opts now creation, now)

/-- Whether the first list is a prefix of the second, as a boolean. -/
def listStartsWith : List Char → List Char → Bool
  | [], _ => true
  | _ :: _, [] => false
  | p :: ps, c :: cs => p = c && listStartsWith ps cs

/-- Matcher for the regex fragment `.+ not found` (unanchored tail allowed):
one or more non-newline characters followed by the literal " not found". -/
def dotPlusNotFound : List Char → Bool
  | [] => false
  | c :: rest =>
    c != '\n' && (listStartsWith (" not found".toList) rest || dotPlusNotFound rest)

/-- Matcher for the regex fragment `.+ in pod .+ not found`. -/
def dotPlusInPod : List Char → Bool
  | [] => false
  | c :: rest =>
    c != '\n' &&
      ((listStartsWith (" in pod ".toList) rest &&
          dotPlusNotFound (rest.drop (" in pod ".toList).length)) ||
        dotPlusInPod rest)

/-- Unanchored scan for `query.terminatedContainerNotFoundRegex`, the RE2
pattern "previous terminated container .+ in pod .+ not found" (`.` does
not match a newline). -/
def terminatedScan : List Char → Bool
  | [] => false
  | c :: rest =>
    (listStartsWith ("previous terminated container ".toList) (c :: rest) &&
        dotPlusInPod ((c :: rest).drop ("previous terminated container ".toList).length)) ||
      terminatedScan rest

/-- `query.isTerminatedContainerNotFound`: a non-nil error whose message is
matched by `terminatedContainerNotFoundRegex`. -/
def isTerminatedContainerNotFound (err : Option String) : Bool :=
  match err with
  | none => false
  | some msg => terminatedScan msg.toList

/-- Outcome of `req.Stream` plus the subsequent read loop of
`CollectLogsInPod`: either the stream opened (with the accumulated text
and the read loop's soft error) or opening it failed with an error
message. -/
inductive StreamOpen where
  | ok : String → Option String → StreamOpen
  | fail : String → StreamOpen
deriving DecidableEq

/-- The `outputs` document of `CollectLogsInPod`: the `logs` text and the
optional `err` field. -/
structure LogsOutput where
  logs : String
  errField : Option String
deriving DecidableEq

/-- The stream-handling logic of `CollectLogsInPod`: a stream-open error
that is not the recognized terminated-container condition aborts with a
fatal error; a recognized one leaves the builder empty and flows into
`readErr`, which populates the `err` output field; a successful open
passes the accumulated text and the read loop's error through. -/
def collectLogs (s : StreamOpen) : Except String LogsOutput :=
  match s with
  | StreamOpen.fail msg =>
    if !isTerminatedContainerNotFound (some msg) then Except.error msg
    else Except.ok { logs := "", errField := some msg }
  | StreamOpen.ok content readErr => Except.ok { logs := content, errField := readErr }

/-! ## Fixtures: concrete objects used by witnesses and counterexamples -/

/-- A LoadBalancer service with one port and one ingress entry carrying
both a hostname and an IP. -/
def svcC1 : Service :=
  { kind := "Service", apiVersion := "v1", nspace := "default", name := "s1",
    uid := "u1", resourceVersion := "1", specType := "LoadBalancer",
    ports := [{ protocol := "TCP", port := 80, nodePort := 0 }],
    lbIngress := [{ ip := "1.2.3.4", hostname := "lb.example.com" }] }

/-- A NodePort service with two ports. -/
def svcC5a : Service :=
  { kind := "Service", apiVersion := "v1", nspace := "default", name := "s2",
    uid := "u2", resourceVersion := "2", specType := "NodePort",
    ports := [{ protocol := "TCP", port := 80, nodePort := 30080 },
              { protocol := "UDP", port := 53, nodePort := 30053 }],
    lbIngress := [] }

/-- A ClusterIP service with one port. -/
def svcC5b : Service :=
  { kind := "Service", apiVersion := "v1", nspace := "default", name := "s3",
    uid := "u3", resourceVersion := "3", specType := "ClusterIP",
    ports := [{ protocol := "TCP", port := 80, nodePort := 0 }],
    lbIngress := [] }

/-- An ingress whose only rule has an empty host but an HTTP path set. -/
def ingC2 : Ingress :=
  { kind := "Ingress", apiVersion := "networking.k8s.io/v1", nspace := "default",
    name := "i1", uid := "u4", resourceVersion := "4", annotations := [],
    tls := [], rules := [{ host := "", http := some [{ path := "/x" }] }] }

/-- An ingress with a blanket TLS entry and an https-port annotation whose
value exceeds the signed 32-bit range by exactly 80. -/
def ingC4 : Ingress :=
  { kind := "Ingress", apiVersion := "networking.k8s.io/v1beta1", nspace := "default",
    name := "i2", uid := "u5", resourceVersion := "5",
    annotations := [(AnnoIngressControllerHTTPSPort, "4294967376")],
    tls := [{ hosts := [] }],
    rules := [{ host := "a.example.com", http := some [{ path := "/" }] }] }

/-- The single endpoint the code derives from `ingC4`. -/
def epC4 : ServiceEndpoint :=
  { endpoint := { protocol := "TCP", appProtocol := some "https",
                  host := "a.example.com", port := 80, path := "/" }
    ref := ingRef ingC4 }

/-- An applied Ingress resource of an unsupported group. -/
def rBadIngress : AppliedResource :=
  { cluster := "", group := "extensions", version := "v1beta1", kind := "Ingress",
    nspace := "default", name := "i3" }

/-- An applied Service resource. -/
def rSvc : AppliedResource :=
  { cluster := "", group := "", version := "v1", kind := "Service",
    nspace := "default", name := "s4" }

/-- An environment that accepts every resource and resolves `rSvc` to the
NodePort service `svcC5a`. -/
def envC6 : Env :=
  { filterOk := fun _ => true
    getIngress := fun _ => none
    getService := fun r => if r = rSvc then some svcC5a else none
    helmServices := fun _ => []
    helmIngresses := fun _ => [] }

/-- A stream-open error message matched by the terminated-container regex. -/
def msgC8 : String := "previous terminated container \"vela\" in pod \"pod-1\" not found"

/-- An endpoint rendered without a port: https at 443 with a bare "/" path. -/
def sepA : ServiceEndpoint :=
  { endpoint := { protocol := "TCP", appProtocol := some "https",
                  host := "a.com", port := 443, path := "/" }
    ref := { kind := "Ingress", nspace := "default", name := "i4", uid := "u6",
             apiVersion := "networking.k8s.io/v1", resourceVersion := "6" } }

/-- An endpoint rendered with a port: no app protocol, port 8080. -/
def sepB : ServiceEndpoint :=
  { endpoint := { protocol := "TCP", appProtocol := none,
                  host := "b.com", port := 8080, path := "/x" }
    ref := { kind := "Service", nspace := "default", name := "s5", uid := "u7",
             apiVersion := "v1", resourceVersion := "7" } }

/-! ## Helper lemmas -/

/-- `wrap64` is the identity on the signed 64-bit range. -/
theorem wrap64_eq_self {n : Int} (h1 : -(2 ^ 63) ≤ n) (h2 : n < 2 ^ 63) :
    wrap64 n = n := by
  unfold wrap64
  omega

/-- The TLS loop returns "https" exactly when some entry's host list
contains the host or some entry's host list is empty. -/
theorem getAppProtocolLoop_spec (host : String) (l : List IngressTLS) :
    getAppProtocolLoop host l =
      if l.any (fun t => stringsContain t.hosts host) ||
         l.any (fun t => t.hosts.isEmpty)
      then "https" else "http" := by
  induction l with
  | nil => simp [getAppProtocolLoop]
  | cons t rest ih =>
    rcases ht : t.hosts with _ | ⟨x, xs⟩
    · simp [getAppProtocolLoop, ht, stringsContain]
    · by_cases hc : stringsContain t.hosts host = true
      · simp [getAppProtocolLoop, ht, hc, stringsContain] at hc ⊢
        simp [hc]
      · simp only [Bool.not_eq_true] at hc
        simp [getAppProtocolLoop, ht, hc, ih]
        rw [ht] at hc
        simp [hc]

/-! ## Claim theorems -/

/-- C3: for every Ingress and rule host, the derived appProtocol is
"https" exactly when some TLS entry's host list contains the rule's host
or some TLS entry's host list is empty, and "http" otherwise. -/
theorem getAppProtocol_spec (ing : Ingress) (host : String) :
    getAppProtocol ing host =
      if ing.tls.any (fun t => stringsContain t.hosts host) ||
         ing.tls.any (fun t => t.hosts.isEmpty)
      then "https" else "http" := by
  unfold getAppProtocol
  rcases h : ing.tls with _ | ⟨t, rest⟩
  · simp
  · rw [if_pos (by simp)]
    exact getAppProtocolLoop_spec host (t :: rest)

/-- C5: a NodePort service yields exactly one endpoint per service port,
with empty host and the port's assigned node-port value; a ClusterIP or
ExternalName service yields zero endpoints. -/
theorem generatorFromService_nodePort_clusterIP (s : Service) :
    (s.specType = "NodePort" →
      generatorFromService s = s.ports.map (fun port =>
        { endpoint := { protocol := port.protocol, appProtocol := none,
                        host := "", port := port.nodePort, path := "" }
          ref := svcRef s })) ∧
    ((s.specType = "ClusterIP" ∨ s.specType = "ExternalName") →
      generatorFromService s = []) := by
  constructor
  · intro h
    simp [generatorFromService, h]
  · rintro (h | h) <;> simp [generatorFromService, h]

/-- C5 witness: the NodePort service with two ports maps to its two
node-port endpoints, and the ClusterIP service to none. -/
theorem generatorFromService_nodePort_clusterIP_witness :
    generatorFromService svcC5a = svcC5a.ports.map (fun port =>
      { endpoint := { protocol := port.protocol, appProtocol := none,
                      host := "", port := port.nodePort, path := "" }
        ref := svcRef svcC5a }) ∧
    generatorFromService svcC5b = [] :=
  ⟨(generatorFromService_nodePort_clusterIP svcC5a).1 rfl,
   (generatorFromService_nodePort_clusterIP svcC5b).2 (Or.inl rfl)⟩

/-- C9: pod resolution routes the exact group/version/kind
(helm.toolkit.fluxcd.io, v2beta1, HelmRelease) to the helm-release bundle
collector, and any other group/version/kind to the generic collector. -/
theorem collectorFor_dispatch (gvk : GroupVersionKind) :
    collectorFor fluxcdHelmReleaseGVK = PodCollectorChoice.helmRelease ∧
    (gvk ≠ fluxcdHelmReleaseGVK → collectorFor gvk = PodCollectorChoice.generic gvk) := by
  constructor
  · simp [collectorFor]
  · intro h
    simp [collectorFor, h]

/-- C9 witness: the fluxcd v2beta1 HelmRelease routes to the bundle
collector, while a HelmRelease of version v2 routes to the generic one. -/
theorem collectorFor_dispatch_witness :
    collectorFor fluxcdHelmReleaseGVK = PodCollectorChoice.helmRelease ∧
    collectorFor { group := "helm.toolkit.fluxcd.io", version := "v2", kind := "HelmRelease" } =
      PodCollectorChoice.generic
        { group := "helm.toolkit.fluxcd.io", version := "v2", kind := "HelmRelease" } :=
  ⟨(collectorFor_dispatch fluxcdHelmReleaseGVK).1,
   (collectorFor_dispatch
      { group := "helm.toolkit.fluxcd.io", version := "v2", kind := "HelmRelease" }).2
      (by decide)⟩

/-- The URL scheme as the claim reads it: the appProtocol when set, else
the lowercased transport protocol. -/
def claimScheme (s : ServiceEndpoint) : String :=
  match s.endpoint.appProtocol with
  | some p => p
  | none => toLowerStr s.endpoint.protocol

/-- The URL path as the claim reads it: a path of exactly "/" renders as
the empty string. -/
def claimPath (s : ServiceEndpoint) : String :=
  if s.endpoint.path = "/" then "" else s.endpoint.path

/-- C10: the endpoint URL uses the claim's scheme and path, and omits the
port exactly when (scheme, port) is (https, 443) or (http, 80). -/
theorem serviceEndpointString_spec (s : ServiceEndpoint) :
    ((claimScheme s = "https" ∧ s.endpoint.port = 443) ∨
     (claimScheme s = "http" ∧ s.endpoint.port = 80) →
      serviceEndpointString s = claimScheme s ++ "://" ++ s.endpoint.host ++ claimPath s) ∧
    (¬((claimScheme s = "https" ∧ s.endpoint.port = 443) ∨
       (claimScheme s = "http" ∧ s.endpoint.port = 80)) →
      serviceEndpointString s =
        claimScheme s ++ "://" ++ s.endpoint.host ++ ":" ++
          toString s.endpoint.port ++ claimPath s) := by
  unfold serviceEndpointString claimScheme claimPath
  constructor
  · intro h
    rw [if_pos h]
  · intro h
    rw [if_neg h]

/-- C10 witness: an https endpoint on 443 with a "/" path renders without
a port and with an empty path; a TCP endpoint on 8080 keeps its port. -/
theorem serviceEndpointString_spec_witness :
    serviceEndpointString sepA = claimScheme sepA ++ "://" ++ sepA.endpoint.host ++ claimPath sepA ∧
    serviceEndpointString sepB =
      claimScheme sepB ++ "://" ++ sepB.endpoint.host ++ ":" ++
        toString sepB.endpoint.port ++ claimPath sepB :=
  ⟨(serviceEndpointString_spec sepA).1 (Or.inl ⟨rfl, rfl⟩),
   (serviceEndpointString_spec sepB).2 (by decide)⟩

/-- The claim C1 reading of the LoadBalancer rule: exactly one endpoint
per (port, ingress entry) pair, whose host is the entry hostname when
non-empty and otherwise the entry IP. -/
def claimLBEndpoints (s : Service) : List ServiceEndpoint :=
  s.ports.flatMap (fun port =>
    s.lbIngress.map (fun ing =>
      { endpoint := { protocol := port.protocol, appProtocol := none,
                      host := if ing.hostname ≠ "" then ing.hostname else ing.ip,
                      port := port.port, path := "" }
        ref := svcRef s }))

/-- C1 counterexample: on a LoadBalancer service whose single ingress
entry has both a hostname and an IP, the code emits two endpoints for the
single (port, entry) pair, not the one endpoint the claim predicts. -/
theorem generatorFromService_lb_pair_counterexample :
    (generatorFromService svcC1).length = 2 ∧
    (claimLBEndpoints svcC1).length = 1 ∧
    generatorFromService svcC1 ≠ claimLBEndpoints svcC1 := by
  decide

/-- C1 amended: for a LoadBalancer service, each (port, ingress entry)
pair contributes one endpoint per non-empty address field of the entry —
one with host = hostname when the hostname is non-empty, and one with
host = IP when the IP is non-empty — with protocol and port taken from the
service port. -/
theorem generatorFromService_loadBalancer_amended (s : Service)
    (h : s.specType = "LoadBalancer") :
    generatorFromService s =
      s.ports.flatMap (fun port =>
        s.lbIngress.flatMap (fun ing =>
          (if ing.hostname = "" then [] else
            [{ endpoint := { protocol := port.protocol, appProtocol := none,
                             host := ing.hostname, port := port.port, path := "" }
               ref := svcRef s }]) ++
          (if ing.ip = "" then [] else
            [{ endpoint := { protocol := port.protocol, appProtocol := none,
                             host := ing.ip, port := port.port, path := "" }
               ref := svcRef s }]))) := by
  unfold generatorFromService
  rw [if_pos h]
  apply List.flatMap_congr
  intro port _
  apply List.flatMap_congr
  intro ing _
  by_cases h1 : ing.hostname = "" <;> by_cases h2 : ing.ip = "" <;> simp [h1, h2]

/-- C1 witness: the amended rule evaluated on the both-fields service. -/
theorem generatorFromService_loadBalancer_amended_witness :
    generatorFromService svcC1 =
      svcC1.ports.flatMap (fun port =>
        svcC1.lbIngress.flatMap (fun ing =>
          (if ing.hostname = "" then [] else
            [{ endpoint := { protocol := port.protocol, appProtocol := none,
                             host := ing.hostname, port := port.port, path := "" }
               ref := svcRef svcC1 }]) ++
          (if ing.ip = "" then [] else
            [{ endpoint := { protocol := port.protocol, appProtocol := none,
                             host := ing.ip, port := port.port, path := "" }
               ref := svcRef svcC1 }]))) :=
  generatorFromService_loadBalancer_amended svcC1 rfl

/-- The claim C2 reading of the ingress rule filter: only rules with a
non-empty host and an HTTP path set contribute endpoints. -/
def claimIngressEndpoints (ing : Ingress) : List ServiceEndpoint :=
  ing.rules.flatMap (fun rule =>
    if rule.host ≠ "" then
      match rule.http with
      | none => []
      | some paths =>
        paths.map (fun p =>
          { endpoint := { protocol := "TCP",
                          appProtocol := some (getAppProtocol ing rule.host),
                          host := rule.host,
                          port := toInt32 (getEndpointPort ing (getAppProtocol ing rule.host)),
                          path := p.path }
            ref := ingRef ing })
    else [])

/-- C2 counterexample: an ingress whose only rule has an empty host but an
HTTP path set still yields one endpoint; the code never checks the host,
so the claim's empty-host exclusion is false. -/
theorem generatorFromIngress_emptyHost_counterexample :
    (generatorFromIngress ingC2).length = 1 ∧
    claimIngressEndpoints ingC2 = [] ∧
    generatorFromIngress ingC2 ≠ claimIngressEndpoints ingC2 := by
  decide

/-- Endpoints a single ingress rule accounts for: one per path when the
HTTP section is set, none otherwise. -/
def ruleEndpointCount (r : IngressRule) : Nat :=
  match r.http with
  | none => 0
  | some paths => paths.length

/-- C2 amended: fromIngress emits one endpoint per path of each rule whose
HTTP section is set — regardless of whether the rule's host is empty — and
rules without an HTTP section contribute no endpoints. -/
theorem generatorFromIngress_count_amended (ing : Ingress) :
    (generatorFromIngress ing).length = (ing.rules.map ruleEndpointCount).sum := by
  unfold generatorFromIngress
  rw [List.length_flatMap]
  congr 1
  apply List.map_congr_left
  intro r _
  cases h : r.http <;> simp [ruleEndpointCount, h]

/-- The claim C4 https-port rule: the integer value of the https-port
annotation when it parses as a positive integer, else 443. -/
def claimHTTPSPort (ing : Ingress) : Int :=
  match atoi (annoLookup ing.annotations AnnoIngressControllerHTTPSPort) with
  | some p => if p > 0 then p else 443
  | none => 443

/-- The claim C4 http-port rule: the integer value of the http-port
annotation when it parses as a positive integer, else 80. -/
def claimHTTPPort (ing : Ingress) : Int :=
  match atoi (annoLookup ing.annotations AnnoIngressControllerHTTPPort) with
  | some p => if p > 0 then p else 80
  | none => 80

/-- C4 counterexample: with https-port annotation "4294967376" (which
parses as the positive integer 4294967376), the produced https endpoint
carries port 80 — the Go `int32` conversion wraps the value — not the
annotation's integer value as the claim states. -/
theorem ingressEndpoint_port_counterexample :
    atoi (annoLookup ingC4.annotations AnnoIngressControllerHTTPSPort) = some 4294967376 ∧
    generatorFromIngress ingC4 = [epC4] ∧
    epC4.endpoint.port = 80 ∧ (80 : Int) ≠ 4294967376 := by
  refine ⟨by decide, by decide, rfl, by decide⟩

/-- C4 amended: every ingress-derived endpoint has transport protocol TCP,
and its port is the signed 32-bit wrap of the annotation-driven value —
the https-port annotation value when positive else 443 for https
endpoints, the http-port annotation value when positive else 80 for http
endpoints. -/
theorem ingressEndpoint_port_amended (ing : Ingress) (e : ServiceEndpoint)
    (he : e ∈ generatorFromIngress ing) :
    e.endpoint.protocol = "TCP" ∧
    (e.endpoint.appProtocol = some "https" →
      e.endpoint.port = toInt32 (claimHTTPSPort ing)) ∧
    (e.endpoint.appProtocol = some "http" →
      e.endpoint.port = toInt32 (claimHTTPPort ing)) := by
  unfold generatorFromIngress at he
  rw [List.mem_flatMap] at he
  obtain ⟨rule, _, he⟩ := he
  cases hh : rule.http with
  | none => rw [hh] at he; simp at he
  | some paths =>
    rw [hh] at he
    simp only [List.mem_map] at he
    obtain ⟨p, _, hp⟩ := he
    subst hp
    refine ⟨rfl, ?_, ?_⟩
    · intro hps
      simp only [Option.some.injEq] at hps
      simp [hps, getEndpointPort, claimHTTPSPort]
    · intro hps
      simp only [Option.some.injEq] at hps
      simp [hps, getEndpointPort, claimHTTPPort]

/-- C4 witness: the amended port rule evaluated on the wrapped-annotation
ingress and its single endpoint. -/
theorem ingressEndpoint_port_amended_witness :
    epC4.endpoint.protocol = "TCP" ∧
    (epC4.endpoint.appProtocol = some "https" →
      epC4.endpoint.port = toInt32 (claimHTTPSPort ingC4)) ∧
    (epC4.endpoint.appProtocol = some "http" →
      epC4.endpoint.port = toInt32 (claimHTTPPort ingC4)) :=
  ingressEndpoint_port_amended ingC4 epC4 (by decide)

/-- C6: an applied Ingress resource whose group is not the network group
or whose version is neither v1beta1 nor v1 contributes zero endpoints, and
removing it from the applied-resources list leaves the (error-free) result
unchanged — the remaining resources are still processed. -/
theorem generatorServiceEndpoints_unsupported_ingress (env : Env)
    (r : AppliedResource) (pre post : List AppliedResource)
    (hk : r.kind = "Ingress")
    (hv : ¬(r.group = networkGroupName ∧ (r.version = "v1beta1" ∨ r.version = "v1"))) :
    processResource env r = [] ∧
    generatorServiceEndpoints env (pre ++ r :: post) =
      generatorServiceEndpoints env (pre ++ post) := by
  have hz : processResource env r = [] := by
    unfold processResource
    by_cases hf : env.filterOk r
    · simp [hf, hk, hv]
    · simp [hf]
  refine ⟨hz, ?_⟩
  unfold generatorServiceEndpoints
  rw [List.flatMap_append, List.flatMap_append, List.flatMap_cons, hz]
  simp

/-- C6 witness: an extensions-group Ingress contributes nothing, and the
NodePort service after it is still turned into its two endpoints. -/
theorem generatorServiceEndpoints_unsupported_ingress_witness :
    processResource envC6 rBadIngress = [] ∧
    generatorServiceEndpoints envC6 ([] ++ rBadIngress :: [rSvc]) =
      generatorServiceEndpoints envC6 ([] ++ [rSvc]) :=
  generatorServiceEndpoints_unsupported_ingress envC6 rBadIngress [] [rSvc]
    rfl (by decide)

/-- C7 counterexample: with sinceSeconds = 2^62, the signed 64-bit
duration -(2^62)·10^9 wraps to 0, so the window's `from` equals `now`
instead of now − 2^62 seconds as the claim states. -/
theorem logFromDate_overflow_counterexample :
    logFromDate { sinceTime := none, sinceSeconds := some 4611686018427387904 } 0 0 = 0 ∧
    (0 : Int) ≠ 0 - 4611686018427387904 * 1000000000 := by
  constructor
  · decide
  · decide

/-- C7 amended: the window's `to` is the fetch time; `from` is the
since-time when set, else now − sinceSeconds when sinceSeconds is set and
small enough that sinceSeconds·10^9 fits in a signed 64-bit duration
(|sinceSeconds| ≤ 9223372036; beyond that the Go duration arithmetic
wraps), else the pod's creation timestamp — one source, in that priority
order. -/
theorem logWindow_amended (opts : PodLogOptions) (now creation : Int) :
    (logWindow opts now creation).2 = now ∧
    (∀ t, opts.sinceTime = some t → (logWindow opts now creation).1 = t) ∧
    (∀ s, opts.sinceTime = none → opts.sinceSeconds = some s →
      -9223372036 ≤ s → s ≤ 9223372036 →
      (logWindow opts now creation).1 = now - s * 1000000000) ∧
    (opts.sinceTime = none → opts.sinceSeconds = none →
      (logWindow opts now creation).1 = creation) := by
  refine ⟨rfl, ?_, ?_, ?_⟩
  · intro t ht
    simp [logWindow, logFromDate, ht]
  · intro s h1 h2 hlo hhi
    simp only [logWindow, logFromDate, h1, h2]
    rw [wrap64_eq_self (n := -s) (by omega) (by omega)]
    rw [wrap64_eq_self (n := -s * 1000000000) (by omega) (by omega)]
    ring
  · intro h1 h2
    simp [logWindow, logFromDate, h1, h2]

/-- C7 witness: sinceSeconds = 60 at now = 1700000000000000000 ns gives
from = now − 60 s, and with neither option set, from is the creation
timestamp. -/
theorem logWindow_amended_witness :
    (logWindow { sinceTime := none, sinceSeconds := some 60 } 1700000000000000000 5).1 =
      1700000000000000000 - 60 * 1000000000 ∧
    (logWindow { sinceTime := none, sinceSeconds := none } 1700000000000000000 5).1 = 5 :=
  ⟨(logWindow_amended { sinceTime := none, sinceSeconds := some 60 } 1700000000000000000 5).2.2.1
      60 rfl rfl (by decide) (by decide),
   (logWindow_amended { sinceTime := none, sinceSeconds := none } 1700000000000000000 5).2.2.2
      rfl rfl⟩

/-- C8 counterexample: on a stream-open error matched by the
terminated-container regex, the operation returns the outputs document
(no fatal error) with empty logs — but its `err` field carries the
message, so the result is not error-free as the claim states. -/
theorem collectLogs_terminated_counterexample :
    isTerminatedContainerNotFound (some msgC8) = true ∧
    collectLogs (StreamOpen.fail msgC8) =
      Except.ok { logs := "", errField := some msgC8 } ∧
    some msgC8 ≠ (none : Option String) := by
  refine ⟨by decide, by rfl, by decide⟩

/-- C8 amended: a stream-open error matched by the terminated-container
regex is not fatal — the operation still returns its outputs, with empty
log text — but the error message is recorded in the result's soft `err`
field rather than dropped. -/
theorem collectLogs_terminated_amended (msg : String)
    (h : isTerminatedContainerNotFound (some msg) = true) :
    collectLogs (StreamOpen.fail msg) =
      Except.ok { logs := "", errField := some msg } := by
  simp [collectLogs, h]

/-- C8 witness: the amended behaviour on the concrete recognized
message. -/
theorem collectLogs_terminated_amended_witness :
    collectLogs (StreamOpen.fail msgC8) =
      Except.ok { logs := "", errField := some msgC8 } :=
  collectLogs_terminated_amended msgC8 (by decide)

end Query
